import Mathlib

/-!
Shallow embedding of the specterra core module (src/specterra/core.py).

The module loads multispectral satellite imagery: a static sensor registry
maps sensor identifiers to band-name/glob-pattern tables plus a linear
scale/offset, a loader globs one file per band in a directory, decodes it
through a raster collaborator and stores `data * scale + offset` keyed by
abstract band name, and a compositor normalizes three chosen bands with a
percentile contrast stretch.

External collaborators are modelled as function parameters: the filesystem
is `fs : String → Option (List String)` (a path either does not exist or is
a directory listing) and the raster decoder is
`decode : String → Option Raster` (`none` is a decode failure, which in the
source raises).  Pixel values are rationals; Python exceptions become
`Except` errors; `warnings.warn` calls are collected as a list of
(band, pattern) pairs.
-/

namespace Specterra

/-- Shell-glob matching on characters, on explicit fuel (each recursive
call shortens the pattern or the name, so `|p| + |s| + 1` steps always
suffice): `*` (char 42) matches any possibly empty sequence, `?` (char 63)
matches one character, anything else matches literally.  This is the
fragment of `fnmatch` semantics that `glob.glob` applies to the file names
of a single directory. -/
def globMatchAux : Nat → List Char → List Char → Bool
  | 0, _, _ => false
  | _ + 1, [], [] => true
  | _ + 1, [], _ :: _ => false
  | n + 1, p :: ps, s =>
    if p = Char.ofNat 42 then
      (match s with
       | [] => globMatchAux n ps []
       | _ :: cs => globMatchAux n ps s || globMatchAux n (p :: ps) cs)
    else
      match s with
      | [] => false
      | c :: cs => (p == Char.ofNat 63 || p == c) && globMatchAux n ps cs

def globMatch (p s : List Char) : Bool :=
  globMatchAux (p.length + s.length + 1) p s

/-- Does the file name start with a dot? -/
def hiddenFile (f : String) : Bool :=
  match f.data with
  | c :: _ => c = Char.ofNat 46
  | [] => false

/-- Does the glob pattern start with a dot? -/
def dotPattern (p : String) : Bool :=
  match p.data with
  | c :: _ => c = Char.ofNat 46
  | [] => false

/-- `glob.glob(os.path.join(path, pattern))` restricted to one directory:
a file name matches when the pattern matches it, except that a name with a
leading dot is only matched by a pattern with a leading dot. -/
def globFilter (pat : String) (dir : List String) : List String :=
  dir.filter (fun f => (!(hiddenFile f && !dotPattern pat)) && globMatch pat.data f.data)

/-- What the raster-decode collaborator (`rasterio.open` + `read(1)`)
returns for one file: a pixel grid and the georeferencing record. -/
structure Raster where
  width : Nat
  height : Nat
  crs : String
  transform : String
  bounds : String
  data : List (List ℚ)
deriving DecidableEq

/-- One entry of `SENSOR_CONFIG`. -/
structure SensorProfile where
  name : String
  file_pattern : List (String × String)
  scale_factor : ℚ
  offset : ℚ
deriving DecidableEq

def landsat9c2 : SensorProfile :=
  { name := "Landsat 9 Collection 2"
    file_pattern :=
      [("coastal", "*_SR_B1.TIF"), ("blue", "*_SR_B2.TIF"), ("green", "*_SR_B3.TIF"),
       ("red", "*_SR_B4.TIF"), ("nir", "*_SR_B5.TIF"), ("swir1", "*_SR_B6.TIF"),
       ("swir2", "*_SR_B7.TIF")]
    scale_factor := 275 / 10000000
    offset := -2 / 10 }

def landsat8c2 : SensorProfile :=
  { name := "Landsat 8 Collection 2"
    file_pattern :=
      [("coastal", "*_SR_B1.TIF"), ("blue", "*_SR_B2.TIF"), ("green", "*_SR_B3.TIF"),
       ("red", "*_SR_B4.TIF"), ("nir", "*_SR_B5.TIF"), ("swir1", "*_SR_B6.TIF"),
       ("swir2", "*_SR_B7.TIF")]
    scale_factor := 275 / 10000000
    offset := -2 / 10 }

def sentinel2 : SensorProfile :=
  { name := "Sentinel-2 L2A"
    file_pattern :=
      [("coastal", "*_B01_*.jp2"), ("blue", "*_B02_*.jp2"), ("green", "*_B03_*.jp2"),
       ("red", "*_B04_*.jp2"), ("rededge1", "*_B05_*.jp2"), ("rededge2", "*_B06_*.jp2"),
       ("rededge3", "*_B07_*.jp2"), ("nir", "*_B08_*.jp2"), ("nir_narrow", "*_B8A_*.jp2"),
       ("swir1", "*_B11_*.jp2"), ("swir2", "*_B12_*.jp2")]
    scale_factor := 1 / 10000
    offset := 0 }

/-- The keys of `SENSOR_CONFIG`, in dict insertion order: the list shown by
the unknown-sensor `ValueError`. -/
def sensorIds : List String := ["landsat9c2", "landsat8c2", "sentinel2"]

/-- The `SENSOR_CONFIG` dict as a lookup function. -/
def SENSOR_CONFIG (s : String) : Option SensorProfile :=
  if s = "landsat9c2" then some landsat9c2
  else if s = "landsat8c2" then some landsat8c2
  else if s = "sentinel2" then some sentinel2
  else none

/-- The metadata captured from the first decoded band. -/
structure Metadata where
  crs : String
  transform : String
  width : Nat
  height : Nat
  bounds : String
  sensor : String
deriving DecidableEq

def mkMetadata (src : Raster) (name : String) : Metadata :=
  { crs := src.crs, transform := src.transform, width := src.width,
    height := src.height, bounds := src.bounds, sensor := name }

abbrev Grid := List (List ℚ)

/-- `data * scale + offset`, elementwise (`_load_bands`, line 134). -/
def scaleGrid (scale offset : ℚ) (g : Grid) : Grid :=
  g.map (List.map (fun x => x * scale + offset))

/-- The exceptions `load` / `SatelliteImage.__init__` can raise:
`FileNotFoundError` from `load`, the unknown-sensor `ValueError` (carrying
the list of valid identifiers), and a rasterio failure on `open`/`read`. -/
inductive LoadError where
  | fileNotFound : String → LoadError
  | unknownSensor : String → List String → LoadError
  | decodeError : String → LoadError
deriving DecidableEq

/-- The loop body of `SatelliteImage._load_bands`: iterate the pattern
table in order, glob each pattern, warn and skip on zero matches, decode
the first match otherwise (a decode failure aborts the whole load), scale
and store the grid, and capture metadata from the first decoded band. -/
def loadBandsAux (decode : String → Option Raster) (dir : List String)
    (scale offset : ℚ) (name : String) :
    List (String × String) → List (String × Grid) → Option Metadata →
    List (String × String) →
    Except LoadError (List (String × Grid) × Option Metadata × List (String × String))
  | [], bands, md, ws => .ok (bands, md, ws)
  | (bn, pat) :: rest, bands, md, ws =>
    match globFilter pat dir with
    | [] => loadBandsAux decode dir scale offset name rest bands md (ws ++ [(bn, pat)])
    | f :: _ =>
      match decode f with
      | none => .error (.decodeError f)
      | some src =>
        loadBandsAux decode dir scale offset name rest
          (bands ++ [(bn, scaleGrid scale offset src.data)])
          (match md with
           | none => some (mkMetadata src name)
           | some m => some m)
          ws

structure SatelliteImage where
  path : String
  sensor : String
  bands : List (String × Grid)
  metadata : Option Metadata
  config : SensorProfile
deriving DecidableEq

/-- `SatelliteImage.__init__`: reject an unregistered sensor with the
`ValueError` listing the registry keys, then run `_load_bands`.  `glob` on
a nonexistent path simply matches nothing, hence the `.getD []`.  The
emitted warnings are returned alongside the image. -/
def SatelliteImage.init (fs : String → Option (List String))
    (decode : String → Option Raster) (path sensor : String) :
    Except LoadError (SatelliteImage × List (String × String)) :=
  match SENSOR_CONFIG sensor with
  | none => .error (.unknownSensor sensor sensorIds)
  | some cfg =>
    match loadBandsAux decode ((fs path).getD []) cfg.scale_factor cfg.offset cfg.name
        cfg.file_pattern [] none [] with
    | .error e => .error e
    | .ok (bands, md, ws) =>
      .ok ({ path := path, sensor := sensor, bands := bands, metadata := md,
             config := cfg }, ws)

/-- Top-level `load`: checks `os.path.exists(path)` first, then constructs
the `SatelliteImage`. -/
def load (fs : String → Option (List String)) (decode : String → Option Raster)
    (path sensor : String) :
    Except LoadError (SatelliteImage × List (String × String)) :=
  if (fs path).isSome then SatelliteImage.init fs decode path sensor
  else .error (.fileNotFound path)

def bandKeys (bands : List (String × Grid)) : List String := bands.map Prod.fst

def lookupBand (bands : List (String × Grid)) (n : String) : Option Grid :=
  (bands.find? (fun p => p.1 == n)).map Prod.snd

/-- The `KeyError` of `get_band`, carrying the requested name and the
loaded keys. -/
inductive BandError where
  | bandNotFound : String → List String → BandError
deriving DecidableEq

/-- `SatelliteImage.get_band`. -/
def SatelliteImage.get_band (img : SatelliteImage) (n : String) :
    Except BandError Grid :=
  match lookupBand img.bands n with
  | none => .error (.bandNotFound n (bandKeys img.bands))
  | some g => .ok g

/-- `np.clip(x, lo, hi)`. -/
def clip (x lo hi : ℚ) : ℚ := min (max x lo) hi

/-- Linear interpolation into a sorted sample list at a fractional rank
(numpy's default percentile interpolation): with `i = ⌊rank⌋`,
`s[i] + (rank - i) * (s[i+1] - s[i])`, the upper sample falling back to
the lower one at the top end. -/
def interp (s : List ℚ) (rank : ℚ) : ℚ :=
  s.getD (Int.toNat ⌊rank⌋) 0 +
    (rank - (⌊rank⌋ : ℚ)) *
      (s.getD (Int.toNat ⌊rank⌋ + 1) (s.getD (Int.toNat ⌊rank⌋) 0) -
       s.getD (Int.toNat ⌊rank⌋) 0)

/-- `np.percentile(xs, q)` with the default linear interpolation:
sort, then interpolate at rank `q / 100 * (n - 1)`. -/
def percentile (q : ℚ) (xs : List ℚ) : ℚ :=
  interp (List.insertionSort (· ≤ ·) xs)
    (q / 100 * (((List.insertionSort (· ≤ ·) xs).length : ℚ) - 1))

def clipGrid (g : Grid) : Grid := g.map (List.map (fun x => clip x 0 1))

/-- `band_clip[band_clip > 0]`: the strictly positive clipped pixels. -/
def validPixels (g : Grid) : List ℚ :=
  (clipGrid g).flatten.filter (fun x => decide (0 < x))

/-- The inner `normalize` of `plot_rgb` (core.py lines 194-201): clip to
[0, 1]; with no valid pixel return the clipped grid; else rescale by the
stretch percentiles of the valid pixels, with the 1e-10 epsilon in the
divisor, and clip to [0, 1]. -/
def normalize (band : Grid) (stretch : ℚ) : Grid :=
  if validPixels band = [] then clipGrid band
  else
    (clipGrid band).map (List.map (fun x =>
      clip ((x - percentile stretch (validPixels band)) /
        (percentile (100 - stretch) (validPixels band) -
         percentile stretch (validPixels band) + 1 / 10000000000)) 0 1))

/-- The `ValueError` of `plot_rgb` for a band missing from the store. -/
inductive PlotError where
  | bandNotAvailable : String → List String → PlotError
deriving DecidableEq

def zip3Rows : List ℚ → List ℚ → List ℚ → List (ℚ × ℚ × ℚ)
  | a :: as, b :: bs, c :: cs => (a, b, c) :: zip3Rows as bs cs
  | _, _, _ => []

/-- `np.dstack` on three equally shaped 2-D grids. -/
def dstack (r g b : Grid) : List (List (ℚ × ℚ × ℚ)) :=
  (List.zip r (List.zip g b)).map (fun t => zip3Rows t.1 t.2.1 t.2.2)

/-- `SatelliteImage.plot_rgb` up to the plotting collaborator: verify the
three requested bands exist (raising for the first missing one), then
normalize each channel and stack them; the returned composite and title
stand for what is handed to matplotlib. -/
def SatelliteImage.plot_rgb (img : SatelliteImage) (r g b : String)
    (stretch : ℚ) : Except PlotError (List (List (ℚ × ℚ × ℚ)) × String) :=
  match [r, g, b].find? (fun n => !(bandKeys img.bands).contains n) with
  | some missing => .error (.bandNotAvailable missing (bandKeys img.bands))
  | none =>
    let red_band := (lookupBand img.bands r).getD []
    let green_band := (lookupBand img.bands g).getD []
    let blue_band := (lookupBand img.bands b).getD []
    let rgb := dstack (normalize red_band stretch) (normalize green_band stretch)
      (normalize blue_band stretch)
    .ok (rgb, r.toUpper ++ ", " ++ g.toUpper ++ ", " ++ b.toUpper ++ " - " ++ img.config.name)

/-- `SatelliteImage.__repr__`: subscripts `self.metadata`, so with no
metadata the subscription fails (`none`) instead of producing the summary
string. -/
def SatelliteImage.reprStr (img : SatelliteImage) : Option String :=
  match img.metadata with
  | none => none
  | some md =>
    some ("SatelliteImage(sensor=" ++ img.sensor ++ ", bands=" ++
      toString img.bands.length ++ ", size=" ++ toString md.width ++ "x" ++
      toString md.height ++ ")")

/-! ## Helper lemmas -/

/-- Discriminator: did the call fail with the unknown-sensor `ValueError`? -/
def isUnknownSensorError :
    Except LoadError (SatelliteImage × List (String × String)) → Bool
  | .error (.unknownSensor _ _) => true
  | _ => false

lemma clip01_nonneg (x : ℚ) : 0 ≤ clip x 0 1 :=
  le_min (le_max_right x 0) zero_le_one

lemma clip01_le_one (x : ℚ) : clip x 0 1 ≤ 1 := min_le_right _ _

lemma clip01_of_nonpos {x : ℚ} (h : x ≤ 0) : clip x 0 1 = 0 := by
  unfold clip
  rw [max_eq_right h, min_eq_left zero_le_one]

/-- `normalize` on a grid with no valid (strictly positive clipped) pixels
returns the clipped grid unchanged. -/
lemma normalize_eq_clipGrid_of_valid_nil (g : Grid) (stretch : ℚ)
    (h : validPixels g = []) : normalize g stretch = clipGrid g := by
  simp [normalize, h]

end Specterra

namespace Specterra

/-! ## C1 -/

/-- C1, counterexample: on a nonexistent path with an unregistered sensor,
`load` fails with `FileNotFoundError` (the existence check runs first), not
with the unknown-sensor error — refuting the claim for nonexistent paths. -/
theorem load_unknown_sensor_cex :
    SENSOR_CONFIG "modis" = none ∧
    load (fun _ => none) (fun _ => none) "scene" "modis" =
      .error (.fileNotFound "scene") ∧
    isUnknownSensorError (load (fun _ => none) (fun _ => none) "scene" "modis") =
      false := by
  refine ⟨rfl, rfl, rfl⟩

/-- C1, amended: for every existing path and every sensor identifier not in
the registry, `load` fails with the unknown-sensor `ValueError` listing the
valid sensor identifiers. -/
theorem load_unknown_sensor_existing_path (fs : String → Option (List String))
    (decode : String → Option Raster) (path sensor : String)
    (hpath : (fs path).isSome = true) (hsensor : SENSOR_CONFIG sensor = none) :
    load fs decode path sensor = .error (.unknownSensor sensor sensorIds) := by
  simp [load, hpath, SatelliteImage.init, hsensor]

/-- C1, witness for the amended theorem at a concrete existing path and the
unregistered sensor identifier "modis". -/
theorem load_unknown_sensor_existing_path_witness :
    ((fun _ => some ([] : List String)) "scene").isSome = true ∧
    SENSOR_CONFIG "modis" = none ∧
    load (fun _ => some []) (fun _ => none) "scene" "modis" =
      .error (.unknownSensor "modis" sensorIds) :=
  ⟨rfl, rfl,
    load_unknown_sensor_existing_path (fun _ => some []) (fun _ => none)
      "scene" "modis" rfl rfl⟩

/-! ## C6 -/

/-- C6: when no strictly positive clipped pixel exists, `normalize` returns
the clipped grid unchanged (so the all-zero grid comes back as-is and no
division is attempted). -/
theorem normalize_no_valid_returns_clipped (g : Grid) (stretch : ℚ)
    (h : validPixels g = []) : normalize g stretch = clipGrid g :=
  normalize_eq_clipGrid_of_valid_nil g stretch h

/-- C6, witness: the all-zero grid has no valid pixels and is returned
unchanged by `normalize`. -/
theorem normalize_no_valid_returns_clipped_witness :
    validPixels [[0, 0], [0, 0]] = [] ∧
    normalize [[0, 0], [0, 0]] 2 = [[0, 0], [0, 0]] := by
  have h : validPixels [[0, 0], [0, 0]] = [] := by
    norm_num [validPixels, clipGrid, clip, List.filter]
  refine ⟨h, (normalize_no_valid_returns_clipped [[0, 0], [0, 0]] 2 h).trans ?_⟩
  norm_num [clipGrid, clip]

/-! ## C7 -/

/-- C7: the stored value is `decoded * scale + offset`; under `sentinel2`
(scale 1/10000, offset 0) a raw value of 10000 maps to exactly 1, and under
`landsat9c2` (scale 275/10^7, offset -1/5) a raw value of 10909 maps to
within 1/10000 of 1/10. -/
theorem scale_offset_roundtrip :
    (∃ cfg, SENSOR_CONFIG "sentinel2" = some cfg ∧
      scaleGrid cfg.scale_factor cfg.offset [[10000]] = [[1]]) ∧
    (∃ cfg y, SENSOR_CONFIG "landsat9c2" = some cfg ∧
      scaleGrid cfg.scale_factor cfg.offset [[10909]] = [[y]] ∧
      |y - 1 / 10| < 1 / 10000) := by
  refine ⟨⟨sentinel2, rfl, ?_⟩,
    ⟨landsat9c2, 10909 * (275 / 10000000) + (-2 / 10), rfl, ?_, ?_⟩⟩
  · norm_num [scaleGrid, sentinel2]
  · norm_num [scaleGrid, landsat9c2]
  · norm_num [abs_lt]

/-! ## C3 -/

/-- C3: calling `plot_rgb` with any of the three requested band names
absent from the band store fails with the band-not-available error, naming
the (first) missing band and listing the loaded band names; no composite
is produced. -/
theorem plot_rgb_missing_band (img : SatelliteImage) (r g b : String)
    (stretch : ℚ)
    (h : ∃ n ∈ [r, g, b], (bandKeys img.bands).contains n = false) :
    ∃ m ∈ [r, g, b], (bandKeys img.bands).contains m = false ∧
      img.plot_rgb r g b stretch =
        .error (.bandNotAvailable m (bandKeys img.bands)) := by
  have hsome : ([r, g, b].find? (fun n => !(bandKeys img.bands).contains n)).isSome := by
    rw [List.find?_isSome]
    obtain ⟨n, hn, hc⟩ := h
    exact ⟨n, hn, by simpa using hc⟩
  obtain ⟨m, hm⟩ := Option.isSome_iff_exists.mp hsome
  refine ⟨m, List.mem_of_find?_eq_some hm, ?_, ?_⟩
  · have := List.find?_some hm
    simpa using this
  · unfold SatelliteImage.plot_rgb
    rw [hm]

/-- C3, witness: an image holding only a "red" band rejects an RGB request
for ("red", "green", "blue") with the error naming "green". -/
theorem plot_rgb_missing_band_witness :
    (∃ n ∈ ["red", "green", "blue"],
      (bandKeys (SatelliteImage.mk "p" "landsat9c2" [("red", [[1]])] none
        landsat9c2).bands).contains n = false) ∧
    (∃ m ∈ ["red", "green", "blue"],
      (bandKeys (SatelliteImage.mk "p" "landsat9c2" [("red", [[1]])] none
        landsat9c2).bands).contains m = false ∧
      (SatelliteImage.mk "p" "landsat9c2" [("red", [[1]])] none
        landsat9c2).plot_rgb "red" "green" "blue" 2 =
        .error (.bandNotAvailable m
          (bandKeys (SatelliteImage.mk "p" "landsat9c2" [("red", [[1]])] none
            landsat9c2).bands))) :=
  ⟨⟨"green", by simp, by simp [bandKeys]⟩,
    plot_rgb_missing_band _ "red" "green" "blue" 2
      ⟨"green", by simp, by simp [bandKeys]⟩⟩

/-! ## C8 -/

/-- If some pattern in the remaining list has a first glob match whose
decode fails, the band-loading loop aborts with an error (either at that
band or at an earlier failing one). -/
lemma loadBandsAux_decode_failure (decode : String → Option Raster)
    (dir : List String) (scale offset : ℚ) (name : String) :
    ∀ (pats : List (String × String)) (bands0 : List (String × Grid))
      (md : Option Metadata) (ws : List (String × String))
      (bn pat f : String) (rest : List String),
      (bn, pat) ∈ pats → globFilter pat dir = f :: rest → decode f = none →
      ∃ e, loadBandsAux decode dir scale offset name pats bands0 md ws = .error e := by
  intro pats
  induction pats with
  | nil => intro _ _ _ _ _ _ _ hmem _ _; simp at hmem
  | cons q qs ih =>
    intro bands0 md ws bn pat f rest hmem hglob hdec
    obtain ⟨qn, qp⟩ := q
    rcases List.mem_cons.mp hmem with heq | hmem2
    · cases heq
      simp only [loadBandsAux, hglob, hdec]
      exact ⟨.decodeError f, rfl⟩
    · cases hg : globFilter qp dir with
      | nil =>
        simp only [loadBandsAux, hg]
        exact ih _ _ _ _ _ _ _ hmem2 hglob hdec
      | cons g gs =>
        cases hd : decode g with
        | none =>
          simp only [loadBandsAux, hg, hd]
          exact ⟨.decodeError g, rfl⟩
        | some src =>
          simp only [loadBandsAux, hg, hd]
          exact ih _ _ _ _ _ _ _ hmem2 hglob hdec

/-- C8: if the file selected for any matched band pattern fails to decode,
`load` returns an error and hands no `SatelliteImage` to the caller — the
partially filled band store is never observable. -/
theorem load_aborts_on_decode_failure (fs : String → Option (List String))
    (decode : String → Option Raster) (path sensor : String)
    (dir : List String) (cfg : SensorProfile) (bn pat f : String)
    (rest : List String)
    (hfs : fs path = some dir) (hcfg : SENSOR_CONFIG sensor = some cfg)
    (hmem : (bn, pat) ∈ cfg.file_pattern)
    (hglob : globFilter pat dir = f :: rest) (hdec : decode f = none) :
    ∃ e, load fs decode path sensor = .error e := by
  obtain ⟨e, he⟩ := loadBandsAux_decode_failure decode dir cfg.scale_factor
    cfg.offset cfg.name cfg.file_pattern [] none [] bn pat f rest hmem hglob hdec
  refine ⟨e, ?_⟩
  simp [load, hfs, SatelliteImage.init, hcfg, he]

/-- C8, witness: a directory holding a coastal-band file whose decode
fails makes the whole landsat9c2 `load` abort. -/
theorem load_aborts_on_decode_failure_witness :
    ((fun _ => some ["a_SR_B1.TIF"]) "scene") = some ["a_SR_B1.TIF"] ∧
    ("coastal", "*_SR_B1.TIF") ∈ landsat9c2.file_pattern ∧
    globFilter "*_SR_B1.TIF" ["a_SR_B1.TIF"] = ["a_SR_B1.TIF"] ∧
    ((fun _ => none : String → Option Raster) "a_SR_B1.TIF") = none ∧
    ∃ e, load (fun _ => some ["a_SR_B1.TIF"]) (fun _ => none) "scene" "landsat9c2" =
      .error e :=
  ⟨rfl, by decide, by decide, rfl,
    load_aborts_on_decode_failure (fun _ => some ["a_SR_B1.TIF"]) (fun _ => none)
      "scene" "landsat9c2" ["a_SR_B1.TIF"] landsat9c2 "coastal" "*_SR_B1.TIF"
      "a_SR_B1.TIF" [] rfl rfl (by decide) (by decide) rfl⟩

/-! ## C2 -/

/-- The metadata after the loop processes `pats` when every pattern
decodes: unchanged if already set, else captured from the first band. -/
def mdAfter (R : String × String → Raster) (name : String)
    (md : Option Metadata) : List (String × String) → Option Metadata
  | [] => md
  | p :: _ =>
    match md with
    | some m => some m
    | none => some (mkMetadata (R p) name)

/-- When every remaining pattern has a unique glob match that decodes, the
loop stores all bands in pattern order and keeps / captures metadata. -/
lemma loadBandsAux_all_found (decode : String → Option Raster)
    (dir : List String) (scale offset : ℚ) (name : String)
    (F : String × String → String) (R : String × String → Raster) :
    ∀ (pats : List (String × String)) (bands0 : List (String × Grid))
      (md : Option Metadata) (ws : List (String × String)),
      (∀ p ∈ pats, globFilter p.2 dir = [F p] ∧ decode (F p) = some (R p)) →
      loadBandsAux decode dir scale offset name pats bands0 md ws =
        .ok (bands0 ++ pats.map (fun p => (p.1, scaleGrid scale offset (R p).data)),
             mdAfter R name md pats, ws) := by
  intro pats
  induction pats with
  | nil => intro _ _ _ _; simp [loadBandsAux, mdAfter]
  | cons q qs ih =>
    intro bands0 md ws h
    obtain ⟨hg, hd⟩ := h q (List.mem_cons_self _ _)
    obtain ⟨qn, qp⟩ := q
    simp only [loadBandsAux, hg, hd]
    rw [ih _ _ _ (fun p hp => h p (List.mem_cons_of_mem _ hp))]
    cases md <;> cases qs <;> simp [mdAfter]

/-- C2: for a registered sensor and a directory in which every band
pattern matches exactly one decodable file, `load` succeeds with no
warnings, the band store's keys are exactly the profile's abstract band
names (in order), and the metadata's width and height are the dimensions
of the first decoded raster. -/
theorem load_all_patterns_match (fs : String → Option (List String))
    (decode : String → Option Raster) (path sensor : String)
    (dir : List String) (cfg : SensorProfile)
    (F : String × String → String) (R : String × String → Raster)
    (p0 : String × String) (rest0 : List (String × String))
    (hfs : fs path = some dir) (hcfg : SENSOR_CONFIG sensor = some cfg)
    (hhead : cfg.file_pattern = p0 :: rest0)
    (hall : ∀ p ∈ cfg.file_pattern, globFilter p.2 dir = [F p] ∧ decode (F p) = some (R p)) :
    ∃ img md, load fs decode path sensor = .ok (img, []) ∧
      bandKeys img.bands = cfg.file_pattern.map Prod.fst ∧
      img.metadata = some md ∧
      md.width = (R p0).width ∧ md.height = (R p0).height := by
  have h := loadBandsAux_all_found decode dir cfg.scale_factor cfg.offset
    cfg.name F R cfg.file_pattern [] none [] hall
  refine ⟨{ path := path, sensor := sensor,
            bands := cfg.file_pattern.map
              (fun p => (p.1, scaleGrid cfg.scale_factor cfg.offset (R p).data)),
            metadata := mdAfter R cfg.name none cfg.file_pattern,
            config := cfg },
          mkMetadata (R p0) cfg.name, ?_, ?_, ?_, rfl, rfl⟩
  · simp [load, hfs, SatelliteImage.init, hcfg, h]
  · simp [bandKeys, List.map_map, Function.comp]
  · rw [hhead]
    rfl

/-- A complete demo landsat9c2 scene directory: one file per band. -/
def demoDir : List String :=
  ["a_SR_B1.TIF", "a_SR_B2.TIF", "a_SR_B3.TIF", "a_SR_B4.TIF",
   "a_SR_B5.TIF", "a_SR_B6.TIF", "a_SR_B7.TIF"]

/-- The file each demo band pattern selects. -/
def demoF : String × String → String := fun q =>
  if q.2 = "*_SR_B1.TIF" then "a_SR_B1.TIF"
  else if q.2 = "*_SR_B2.TIF" then "a_SR_B2.TIF"
  else if q.2 = "*_SR_B3.TIF" then "a_SR_B3.TIF"
  else if q.2 = "*_SR_B4.TIF" then "a_SR_B4.TIF"
  else if q.2 = "*_SR_B5.TIF" then "a_SR_B5.TIF"
  else if q.2 = "*_SR_B6.TIF" then "a_SR_B6.TIF"
  else "a_SR_B7.TIF"

/-- The raster every demo file decodes to: 2 wide, 3 high. -/
def demoRaster : Raster :=
  { width := 2, height := 3, crs := "crs", transform := "tr", bounds := "bd",
    data := [[10000]] }

/-- C2, witness: a landsat9c2 directory with one file per band pattern,
every file decoding to the same 2-by-3 raster. -/
theorem load_all_patterns_match_witness :
    (∀ p ∈ landsat9c2.file_pattern,
      globFilter p.2 demoDir = [demoF p] ∧
      (fun _ : String => some demoRaster) (demoF p) =
        some ((fun _ : String × String => demoRaster) p)) ∧
    (∃ img md,
      load (fun _ => some demoDir) (fun _ => some demoRaster) "scene" "landsat9c2" =
        .ok (img, []) ∧
      bandKeys img.bands = landsat9c2.file_pattern.map Prod.fst ∧
      img.metadata = some md ∧ md.width = 2 ∧ md.height = 3) := by
  constructor
  · intro p hp
    refine ⟨?_, rfl⟩
    fin_cases hp <;> decide
  · exact load_all_patterns_match (fun _ => some demoDir) (fun _ => some demoRaster)
      "scene" "landsat9c2" demoDir landsat9c2 demoF (fun _ => demoRaster)
      ("coastal", "*_SR_B1.TIF") _ rfl rfl rfl
      (by intro p hp; refine ⟨?_, rfl⟩; fin_cases hp <;> decide)

/-! ## C4 -/

/-- C4: for landsat9c2, when every band pattern except the red one
(`*_SR_B4.TIF`, zero matches) selects exactly one decodable file, `load`
succeeds, emits exactly one warning (naming the red band and its pattern),
and the band store lacks "red" while holding every other band. -/
theorem load_landsat9_missing_red (fs : String → Option (List String))
    (decode : String → Option Raster) (path : String) (dir : List String)
    (f1 f2 f3 f5 f6 f7 : String) (r1 r2 r3 r5 r6 r7 : Raster)
    (hfs : fs path = some dir)
    (hg1 : globFilter "*_SR_B1.TIF" dir = [f1]) (hd1 : decode f1 = some r1)
    (hg2 : globFilter "*_SR_B2.TIF" dir = [f2]) (hd2 : decode f2 = some r2)
    (hg3 : globFilter "*_SR_B3.TIF" dir = [f3]) (hd3 : decode f3 = some r3)
    (hg4 : globFilter "*_SR_B4.TIF" dir = [])
    (hg5 : globFilter "*_SR_B5.TIF" dir = [f5]) (hd5 : decode f5 = some r5)
    (hg6 : globFilter "*_SR_B6.TIF" dir = [f6]) (hd6 : decode f6 = some r6)
    (hg7 : globFilter "*_SR_B7.TIF" dir = [f7]) (hd7 : decode f7 = some r7) :
    ∃ img, load fs decode path "landsat9c2" =
        .ok (img, [("red", "*_SR_B4.TIF")]) ∧
      bandKeys img.bands = ["coastal", "blue", "green", "nir", "swir1", "swir2"] ∧
      "red" ∉ bandKeys img.bands := by
  refine ⟨{ path := path, sensor := "landsat9c2",
            bands :=
              [("coastal", scaleGrid landsat9c2.scale_factor landsat9c2.offset r1.data),
               ("blue", scaleGrid landsat9c2.scale_factor landsat9c2.offset r2.data),
               ("green", scaleGrid landsat9c2.scale_factor landsat9c2.offset r3.data),
               ("nir", scaleGrid landsat9c2.scale_factor landsat9c2.offset r5.data),
               ("swir1", scaleGrid landsat9c2.scale_factor landsat9c2.offset r6.data),
               ("swir2", scaleGrid landsat9c2.scale_factor landsat9c2.offset r7.data)],
            metadata := some (mkMetadata r1 landsat9c2.name),
            config := landsat9c2 }, ?_, by simp [bandKeys], by simp [bandKeys]⟩
  simp [load, hfs, SatelliteImage.init, SENSOR_CONFIG, landsat9c2, loadBandsAux,
        hg1, hd1, hg2, hd2, hg3, hd3, hg4, hg5, hd5, hg6, hd6, hg7, hd7]

/-- The demo directory with the red-band file removed. -/
def demoDirNoRed : List String :=
  ["a_SR_B1.TIF", "a_SR_B2.TIF", "a_SR_B3.TIF",
   "a_SR_B5.TIF", "a_SR_B6.TIF", "a_SR_B7.TIF"]

/-- C4, witness: the demo directory without its `*_SR_B4.TIF` file. -/
theorem load_landsat9_missing_red_witness :
    globFilter "*_SR_B1.TIF" demoDirNoRed = ["a_SR_B1.TIF"] ∧
    globFilter "*_SR_B2.TIF" demoDirNoRed = ["a_SR_B2.TIF"] ∧
    globFilter "*_SR_B3.TIF" demoDirNoRed = ["a_SR_B3.TIF"] ∧
    globFilter "*_SR_B4.TIF" demoDirNoRed = [] ∧
    globFilter "*_SR_B5.TIF" demoDirNoRed = ["a_SR_B5.TIF"] ∧
    globFilter "*_SR_B6.TIF" demoDirNoRed = ["a_SR_B6.TIF"] ∧
    globFilter "*_SR_B7.TIF" demoDirNoRed = ["a_SR_B7.TIF"] ∧
    (∃ img, load (fun _ => some demoDirNoRed) (fun _ => some demoRaster)
        "scene" "landsat9c2" = .ok (img, [("red", "*_SR_B4.TIF")]) ∧
      bandKeys img.bands = ["coastal", "blue", "green", "nir", "swir1", "swir2"] ∧
      "red" ∉ bandKeys img.bands) :=
  ⟨by decide, by decide, by decide, by decide, by decide, by decide, by decide,
    load_landsat9_missing_red (fun _ => some demoDirNoRed) (fun _ => some demoRaster)
      "scene" demoDirNoRed "a_SR_B1.TIF" "a_SR_B2.TIF" "a_SR_B3.TIF"
      "a_SR_B5.TIF" "a_SR_B6.TIF" "a_SR_B7.TIF"
      demoRaster demoRaster demoRaster demoRaster demoRaster demoRaster
      rfl (by decide) rfl (by decide) rfl (by decide) rfl (by decide)
      (by decide) rfl (by decide) rfl (by decide) rfl⟩

/-! ## C5 -/

lemma getD_of_forall_eq {v : ℚ} {s : List ℚ} (h : ∀ x ∈ s, x = v) {i : Nat}
    (hi : i < s.length) (d : ℚ) : s.getD i d = v := by
  rw [List.getD_eq_getElem s d hi]
  exact h _ (List.getElem_mem hi)

/-- The lower interpolation index stays in range when the rank does. -/
lemma floor_toNat_lt {rank : ℚ} {n : Nat} (h0 : 0 ≤ rank)
    (h1 : rank ≤ (n : ℚ) - 1) : Int.toNat ⌊rank⌋ < n := by
  have hn : 1 ≤ (n : ℚ) := by linarith
  have hn1 : 1 ≤ n := by exact_mod_cast hn
  have hfl : ⌊rank⌋ ≤ (n : ℤ) - 1 := by
    have h2 := Int.floor_le_floor h1
    rwa [show ((n : ℚ) - 1) = (((n : ℤ) - 1 : ℤ) : ℚ) by push_cast; ring,
      Int.floor_intCast] at h2
  omega

/-- Interpolating into a constant list yields the constant. -/
lemma interp_const {v : ℚ} {s : List ℚ} (h : ∀ x ∈ s, x = v) (rank : ℚ)
    (h0 : 0 ≤ rank) (h1 : rank ≤ (s.length : ℚ) - 1) : interp s rank = v := by
  have hi : Int.toNat ⌊rank⌋ < s.length := floor_toNat_lt h0 h1
  unfold interp
  rw [getD_of_forall_eq h hi]
  by_cases h2 : Int.toNat ⌊rank⌋ + 1 < s.length
  · rw [getD_of_forall_eq h h2]
    ring
  · rw [List.getD_eq_default _ _ (by omega)]
    ring

/-- A percentile of a nonempty constant sample list is that constant, for
any percentile rank within [0, 100]. -/
lemma percentile_const {v : ℚ} {xs : List ℚ} (q : ℚ) (hne : xs ≠ [])
    (hv : ∀ x ∈ xs, x = v) (h0 : 0 ≤ q) (h1 : q ≤ 100) :
    percentile q xs = v := by
  have hperm := List.perm_insertionSort (· ≤ ·) xs
  have hlen : (List.insertionSort (· ≤ ·) xs).length = xs.length := hperm.length_eq
  have hpos : 0 < xs.length := List.length_pos.mpr hne
  have hn : 1 ≤ ((List.insertionSort (· ≤ ·) xs).length : ℚ) := by
    rw [hlen]; exact_mod_cast hpos
  apply interp_const (fun x hx => hv x (hperm.mem_iff.mp hx))
  · apply mul_nonneg (div_nonneg h0 (by norm_num))
    linarith
  · refine mul_le_of_le_one_left (by linarith) ?_
    rw [div_le_one (by norm_num)]
    exact h1

/-- C5: on a grid whose valid (strictly positive clipped) pixels all share
one value, the two stretch percentiles coincide, yet the divisor stays
nonzero thanks to the 1e-10 epsilon, and every output entry of `normalize`
is a well-defined rational in [0, 1] — no NaN or infinity. -/
theorem normalize_uniform_no_nan (g : Grid) (stretch v : ℚ)
    (h0 : 0 ≤ stretch) (h100 : stretch ≤ 100)
    (hne : validPixels g ≠ []) (hv : ∀ x ∈ validPixels g, x = v) :
    percentile (100 - stretch) (validPixels g) -
      percentile stretch (validPixels g) + 1 / 10000000000 ≠ 0 ∧
    ∀ row ∈ normalize g stretch, ∀ x ∈ row, 0 ≤ x ∧ x ≤ 1 := by
  have hl := percentile_const stretch hne hv h0 h100
  have hh := percentile_const (100 - stretch) hne hv (by linarith) (by linarith)
  refine ⟨by rw [hl, hh]; norm_num, ?_⟩
  intro row hrow x hx
  rw [normalize, if_neg hne] at hrow
  simp only [List.mem_map] at hrow
  obtain ⟨r0, _, rfl⟩ := hrow
  simp only [List.mem_map] at hx
  obtain ⟨y, _, rfl⟩ := hx
  exact ⟨clip01_nonneg _, clip01_le_one _⟩

/-- C5, witness: a grid whose valid pixels are all 1/2. -/
theorem normalize_uniform_no_nan_witness :
    validPixels [[0, 1/2, 1/2]] ≠ [] ∧
    (∀ x ∈ validPixels [[0, 1/2, 1/2]], x = 1/2) ∧
    (percentile (100 - 2) (validPixels [[0, 1/2, 1/2]]) -
      percentile 2 (validPixels [[0, 1/2, 1/2]]) + 1 / 10000000000 ≠ 0 ∧
    ∀ row ∈ normalize [[0, 1/2, 1/2]] 2, ∀ x ∈ row, 0 ≤ x ∧ x ≤ 1) := by
  have hvp : validPixels [[0, 1/2, 1/2]] = [1/2, 1/2] := by
    norm_num [validPixels, clipGrid, clip, List.filter]
  refine ⟨by rw [hvp]; simp, ?_, ?_⟩
  · rw [hvp]
    intro x hx
    rcases List.mem_pair.mp hx with rfl | rfl <;> rfl
  · exact normalize_uniform_no_nan [[0, 1/2, 1/2]] 2 (1/2) (by norm_num)
      (by norm_num) (by rw [hvp]; simp)
      (by rw [hvp]; intro x hx; rcases List.mem_pair.mp hx with rfl | rfl <;> rfl)

/-! ## C9 -/

lemma clip01_of_between {x : ℚ} (h0 : 0 ≤ x) (h1 : x ≤ 1) : clip x 0 1 = x := by
  unfold clip
  rw [max_eq_left h0, min_eq_left h1]

lemma clip01_of_ge_one {x : ℚ} (h : 1 ≤ x) : clip x 0 1 = 1 := by
  unfold clip
  rw [max_eq_left (le_trans zero_le_one h), min_eq_right h]

lemma getD_irrel {s : List ℚ} {i : Nat} (h : i < s.length) (d d2 : ℚ) :
    s.getD i d = s.getD i d2 := by
  rw [List.getD_eq_getElem s d h, List.getD_eq_getElem s d2 h]

lemma getD_mem {s : List ℚ} {i : Nat} (h : i < s.length) (d : ℚ) :
    s.getD i d ∈ s := by
  rw [List.getD_eq_getElem s d h]
  exact List.getElem_mem h

lemma sorted_getD_le {s : List ℚ} (hs : s.Sorted (· ≤ ·)) {i j : Nat}
    (hij : i ≤ j) (hj : j < s.length) (d : ℚ) : s.getD i d ≤ s.getD j d := by
  rw [List.getD_eq_getElem s d (lt_of_le_of_lt hij hj), List.getD_eq_getElem s d hj]
  have h := hs.rel_get_of_le
    (a := ⟨i, lt_of_le_of_lt hij hj⟩) (b := ⟨j, hj⟩) (Fin.mk_le_mk.mpr hij)
  simpa using h

/-- Interpolating into an all-positive list at an in-range rank stays
positive: the result is a convex combination of two positive samples. -/
lemma interp_pos {s : List ℚ} (hpos : ∀ x ∈ s, 0 < x) {rank : ℚ}
    (h0 : 0 ≤ rank) (h1 : rank ≤ (s.length : ℚ) - 1) : 0 < interp s rank := by
  have hi : Int.toNat ⌊rank⌋ < s.length := floor_toNat_lt h0 h1
  have hfr0 : 0 ≤ rank - (⌊rank⌋ : ℚ) := by linarith [Int.floor_le rank]
  have hfr1 : rank - (⌊rank⌋ : ℚ) < 1 := by linarith [Int.lt_floor_add_one rank]
  have hlo : 0 < s.getD (Int.toNat ⌊rank⌋) 0 := hpos _ (getD_mem hi 0)
  unfold interp
  by_cases h2 : Int.toNat ⌊rank⌋ + 1 < s.length
  · have hhi : 0 < s.getD (Int.toNat ⌊rank⌋ + 1) (s.getD (Int.toNat ⌊rank⌋) 0) :=
      hpos _ (getD_mem h2 _)
    nlinarith [mul_pos (show (0:ℚ) < 1 - (rank - (⌊rank⌋ : ℚ)) by linarith) hlo,
      mul_nonneg hfr0 hhi.le]
  · rw [List.getD_eq_default s (s.getD (Int.toNat ⌊rank⌋) 0) (by omega)]
    simpa using hlo

/-- Linear-interpolated lookup into a sorted list is monotone in the
rank. -/
lemma interp_mono {s : List ℚ} (hs : s.Sorted (· ≤ ·)) {r1 r2 : ℚ}
    (h0 : 0 ≤ r1) (h12 : r1 ≤ r2) (h2 : r2 ≤ (s.length : ℚ) - 1) :
    interp s r1 ≤ interp s r2 := by
  have h0b : 0 ≤ r2 := le_trans h0 h12
  have h1b : r1 ≤ (s.length : ℚ) - 1 := le_trans h12 h2
  have hi1 : Int.toNat ⌊r1⌋ < s.length := floor_toNat_lt h0 h1b
  have hi2 : Int.toNat ⌊r2⌋ < s.length := floor_toNat_lt h0b h2
  have hfl1 : (0 : ℤ) ≤ ⌊r1⌋ := Int.le_floor.mpr (by exact_mod_cast h0)
  have hfl2 : (0 : ℤ) ≤ ⌊r2⌋ := Int.le_floor.mpr (by exact_mod_cast h0b)
  have hfmono : ⌊r1⌋ ≤ ⌊r2⌋ := Int.floor_le_floor h12
  have hfr10 : 0 ≤ r1 - (⌊r1⌋ : ℚ) := by linarith [Int.floor_le r1]
  have hfr11 : r1 - (⌊r1⌋ : ℚ) < 1 := by linarith [Int.lt_floor_add_one r1]
  have hfr20 : 0 ≤ r2 - (⌊r2⌋ : ℚ) := by linarith [Int.floor_le r2]
  rcases eq_or_lt_of_le (show Int.toNat ⌊r1⌋ ≤ Int.toNat ⌊r2⌋ by omega) with heq | hlt
  · -- same interpolation cell
    have hfeq : (⌊r1⌋ : ℚ) = (⌊r2⌋ : ℚ) := by exact_mod_cast (by omega : ⌊r1⌋ = ⌊r2⌋)
    have hΔ : s.getD (Int.toNat ⌊r1⌋) 0 ≤
        s.getD (Int.toNat ⌊r1⌋ + 1) (s.getD (Int.toNat ⌊r1⌋) 0) := by
      by_cases hb : Int.toNat ⌊r1⌋ + 1 < s.length
      · rw [getD_irrel hb _ (0 : ℚ)]
        exact sorted_getD_le hs (Nat.le_succ _) hb 0
      · rw [List.getD_eq_default s (s.getD (Int.toNat ⌊r1⌋) 0) (by omega)]
    unfold interp
    rw [← heq, ← hfeq]
    have := mul_le_mul_of_nonneg_right (sub_le_sub_right h12 ((⌊r1⌋ : ℚ)))
      (sub_nonneg.mpr hΔ)
    linarith
  · -- r1's cell is strictly below r2's
    have hb1 : Int.toNat ⌊r1⌋ + 1 < s.length := by omega
    have step1 : interp s r1 ≤ s.getD (Int.toNat ⌊r1⌋ + 1) 0 := by
      have hle : s.getD (Int.toNat ⌊r1⌋) 0 ≤ s.getD (Int.toNat ⌊r1⌋ + 1) 0 :=
        sorted_getD_le hs (Nat.le_succ _) hb1 0
      unfold interp
      rw [getD_irrel hb1 (s.getD (Int.toNat ⌊r1⌋) 0) (0 : ℚ)]
      nlinarith [mul_le_mul_of_nonneg_right hfr11.le
        (sub_nonneg.mpr hle)]
    have step2 : s.getD (Int.toNat ⌊r1⌋ + 1) 0 ≤ s.getD (Int.toNat ⌊r2⌋) 0 :=
      sorted_getD_le hs (by omega) hi2 0
    have step3 : s.getD (Int.toNat ⌊r2⌋) 0 ≤ interp s r2 := by
      have hΔ : s.getD (Int.toNat ⌊r2⌋) 0 ≤
          s.getD (Int.toNat ⌊r2⌋ + 1) (s.getD (Int.toNat ⌊r2⌋) 0) := by
        by_cases hb : Int.toNat ⌊r2⌋ + 1 < s.length
        · rw [getD_irrel hb _ (0 : ℚ)]
          exact sorted_getD_le hs (Nat.le_succ _) hb 0
        · rw [List.getD_eq_default s (s.getD (Int.toNat ⌊r2⌋) 0) (by omega)]
      unfold interp
      nlinarith [mul_nonneg hfr20 (sub_nonneg.mpr hΔ)]
    linarith

/-- A percentile of a nonempty all-positive sample list is positive. -/
lemma percentile_pos {xs : List ℚ} (hne : xs ≠ []) (hpos : ∀ x ∈ xs, 0 < x)
    {q : ℚ} (h0 : 0 ≤ q) (h1 : q ≤ 100) : 0 < percentile q xs := by
  have hperm := List.perm_insertionSort (· ≤ ·) xs
  have hn : 1 ≤ ((List.insertionSort (· ≤ ·) xs).length : ℚ) := by
    rw [hperm.length_eq]
    exact_mod_cast List.length_pos.mpr hne
  apply interp_pos (fun x hx => hpos x (hperm.mem_iff.mp hx))
  · apply mul_nonneg (div_nonneg h0 (by norm_num))
    linarith
  · refine mul_le_of_le_one_left (by linarith) ?_
    rw [div_le_one (by norm_num)]
    exact h1

/-- Percentiles of a nonempty sample list are monotone in the rank within
[0, 100]. -/
lemma percentile_mono {xs : List ℚ} (hne : xs ≠ []) {q1 q2 : ℚ}
    (h0 : 0 ≤ q1) (h12 : q1 ≤ q2) (h100 : q2 ≤ 100) :
    percentile q1 xs ≤ percentile q2 xs := by
  have hperm := List.perm_insertionSort (· ≤ ·) xs
  have hn : 1 ≤ ((List.insertionSort (· ≤ ·) xs).length : ℚ) := by
    rw [hperm.length_eq]
    exact_mod_cast List.length_pos.mpr hne
  apply interp_mono (List.sorted_insertionSort _ xs)
  · apply mul_nonneg (div_nonneg h0 (by norm_num))
    linarith
  · exact mul_le_mul_of_nonneg_right
      ((div_le_div_iff_of_pos_right (by norm_num)).mpr h12) (by linarith)
  · refine mul_le_of_le_one_left (by linarith) ?_
    rw [div_le_one (by norm_num)]
    linarith

lemma validPixels_pos (g : Grid) : ∀ x ∈ validPixels g, 0 < x := by
  intro x hx
  unfold validPixels at hx
  have h := List.mem_filter.mp hx
  simpa using h.2

lemma getD_map_of_lt {α β : Type} (f : α → β) (l : List α) {i : Nat}
    (h : i < l.length) (d : β) (d2 : α) :
    (l.map f).getD i d = f (l.getD i d2) := by
  rw [List.getD_eq_getElem _ d (by simpa using h), List.getD_eq_getElem l d2 h,
    List.getElem_map]

/-- Entry access through an elementwise grid map. -/
lemma gridEntry_map (f : ℚ → ℚ) (g : Grid) {i j : Nat} (hi : i < g.length)
    (hj : j < (g.getD i []).length) :
    ((g.map (List.map f)).getD i []).getD j 1 = f ((g.getD i []).getD j 1) := by
  rw [getD_map_of_lt (List.map f) g hi [] []]
  rw [getD_map_of_lt f (g.getD i []) hj 1 1]

/-- C9, counterexample: with stretch percentile 60 (within the claimed
[0, 100]) on the grid [[0, 1/5, 4/5]], the percentiles invert
(p_low = 14/25 > p_high = 11/25), the epsilon-shifted divisor is negative,
and the zero pixel is mapped to 1, not 0. -/
theorem normalize_zero_pixel_cex :
    (0 : ℚ) ≤ 60 ∧ (60 : ℚ) ≤ 100 ∧
    clip ((([[0, 1/5, 4/5]] : Grid).getD 0 []).getD 0 1) 0 1 = 0 ∧
    ((normalize [[0, 1/5, 4/5]] 60).getD 0 []).getD 0 1 = 1 := by
  have hvp : validPixels [[0, 1/5, 4/5]] = [1/5, 4/5] := by
    norm_num [validPixels, clipGrid, clip, List.filter]
  have hne : validPixels [[0, 1/5, 4/5]] ≠ [] := by rw [hvp]; simp
  have hsort : List.insertionSort (· ≤ ·) [(1 : ℚ)/5, 4/5] = [1/5, 4/5] := by
    norm_num [List.insertionSort, List.orderedInsert]
  have hp60 : percentile 60 [(1 : ℚ)/5, 4/5] = 14/25 := by
    rw [percentile, hsort]
    norm_num [interp, List.getD]
  have hp40 : percentile (100 - 60) [(1 : ℚ)/5, 4/5] = 11/25 := by
    rw [percentile, hsort]
    norm_num [interp, List.getD]
  have hcg : clipGrid [[(0 : ℚ), 1/5, 4/5]] = [[0, 1/5, 4/5]] := by
    unfold clipGrid
    simp only [List.map_cons, List.map_nil]
    rw [clip01_of_nonpos le_rfl, clip01_of_between (by norm_num) (by norm_num),
      clip01_of_between (by norm_num) (by norm_num)]
  refine ⟨by norm_num, by norm_num, ?_, ?_⟩
  · rw [show (([[(0 : ℚ), 1/5, 4/5]] : Grid).getD 0 []).getD 0 1 = 0 from rfl]
    exact clip01_of_nonpos le_rfl
  · rw [normalize, if_neg hne, hvp, hp60, hp40, hcg]
    rw [show (((([[(0 : ℚ), 1/5, 4/5]]).map (List.map (fun x =>
        clip ((x - 14/25) / (11/25 - 14/25 + 1/10000000000)) 0 1))).getD 0 []).getD 0 1) =
        clip (((0 : ℚ) - 14/25) / (11/25 - 14/25 + 1/10000000000)) 0 1 from rfl]
    apply clip01_of_ge_one
    norm_num

/-- C9, amended: for every stretch percentile in [0, 50] (so that
p_low ≤ p_high and the divisor stays positive), `normalize` maps every
pixel whose clipped value is exactly 0 to exactly 0: p_low is positive
because it interpolates strictly positive valid pixels, so the rescaled
zero pixel is negative and clips to 0; the no-valid-pixels branch also
leaves zeros unchanged. -/
theorem normalize_zero_pixel_to_zero (g : Grid) (stretch : ℚ) (i j : Nat)
    (h0 : 0 ≤ stretch) (h50 : stretch ≤ 50)
    (hi : i < g.length) (hj : j < (g.getD i []).length)
    (hz : clip ((g.getD i []).getD j 1) 0 1 = 0) :
    ((normalize g stretch).getD i []).getD j 1 = 0 := by
  by_cases hval : validPixels g = []
  · rw [normalize, if_pos hval]
    rw [show clipGrid g = g.map (List.map (fun x => clip x 0 1)) from rfl]
    rw [gridEntry_map _ g hi hj]
    exact hz
  · rw [normalize, if_neg hval]
    have hi2 : i < (clipGrid g).length := by simpa [clipGrid] using hi
    have hrow : (clipGrid g).getD i [] = List.map (fun x => clip x 0 1) (g.getD i []) :=
      getD_map_of_lt _ g hi [] []
    have hj2 : j < ((clipGrid g).getD i []).length := by
      rw [hrow]; simpa using hj
    rw [gridEntry_map _ (clipGrid g) hi2 hj2]
    rw [hrow, getD_map_of_lt _ (g.getD i []) hj 1 1, hz]
    have hpl : 0 < percentile stretch (validPixels g) :=
      percentile_pos hval (validPixels_pos g) h0 (by linarith)
    have hmono : percentile stretch (validPixels g) ≤
        percentile (100 - stretch) (validPixels g) :=
      percentile_mono hval h0 (by linarith) (by linarith)
    apply clip01_of_nonpos
    exact div_nonpos_iff.mpr (Or.inr ⟨by linarith, by linarith⟩)

/-- C9, witness for the amended theorem: the default stretch 2 on the grid
[[0, 1/5, 4/5]] maps the zero pixel to exactly 0. -/
theorem normalize_zero_pixel_to_zero_witness :
    (0 : ℚ) ≤ 2 ∧ (2 : ℚ) ≤ 50 ∧ 0 < ([[0, 1/5, 4/5]] : Grid).length ∧
    0 < (([[0, 1/5, 4/5]] : Grid).getD 0 []).length ∧
    clip ((([[0, 1/5, 4/5]] : Grid).getD 0 []).getD 0 1) 0 1 = 0 ∧
    ((normalize [[0, 1/5, 4/5]] 2).getD 0 []).getD 0 1 = 0 := by
  refine ⟨by norm_num, by norm_num, by simp, by simp, ?_, ?_⟩
  · rw [show (([[(0 : ℚ), 1/5, 4/5]] : Grid).getD 0 []).getD 0 1 = 0 from rfl]
    exact clip01_of_nonpos le_rfl
  · exact normalize_zero_pixel_to_zero [[0, 1/5, 4/5]] 2 0 0 (by norm_num)
      (by norm_num) (by simp) (by simp)
      (by rw [show (([[(0 : ℚ), 1/5, 4/5]] : Grid).getD 0 []).getD 0 1 = 0 from rfl]
          exact clip01_of_nonpos le_rfl)

/-! ## C10 -/

/-- When every remaining pattern misses, the loop only accumulates
warnings. -/
lemma loadBandsAux_all_missing (decode : String → Option Raster)
    (dir : List String) (scale offset : ℚ) (name : String) :
    ∀ (pats : List (String × String)) (bands0 : List (String × Grid))
      (md : Option Metadata) (ws : List (String × String)),
      (∀ p ∈ pats, globFilter p.2 dir = []) →
      loadBandsAux decode dir scale offset name pats bands0 md ws =
        .ok (bands0, md, ws ++ pats) := by
  intro pats
  induction pats with
  | nil => intro _ _ _ _; simp [loadBandsAux]
  | cons q qs ih =>
    intro bands0 md ws h
    obtain ⟨qn, qp⟩ := q
    simp only [loadBandsAux]
    rw [h (qn, qp) (List.mem_cons_self _ _)]
    rw [ih bands0 md (ws ++ [(qn, qp)]) (fun p hp => h p (List.mem_cons_of_mem _ hp))]
    simp

/-- C10: when no band pattern matches, `load` still succeeds and yields an
image with an empty band store and no metadata — and the textual summary
representation of that image fails (metadata subscription on `None`)
instead of returning a summary string. -/
theorem repr_fails_on_metadata_free_image (fs : String → Option (List String))
    (decode : String → Option Raster) (path sensor : String)
    (dir : List String) (cfg : SensorProfile)
    (hfs : fs path = some dir) (hcfg : SENSOR_CONFIG sensor = some cfg)
    (hmiss : ∀ p ∈ cfg.file_pattern, globFilter p.2 dir = []) :
    load fs decode path sensor =
      .ok ({ path := path, sensor := sensor, bands := [], metadata := none,
             config := cfg }, cfg.file_pattern) ∧
    SatelliteImage.reprStr
      { path := path, sensor := sensor, bands := [], metadata := none,
        config := cfg } = none := by
  constructor
  · have h := loadBandsAux_all_missing decode dir cfg.scale_factor cfg.offset
      cfg.name cfg.file_pattern [] none [] hmiss
    simp [load, hfs, SatelliteImage.init, hcfg, h]
  · rfl

/-- C10, witness: loading landsat9c2 from an existing empty directory
succeeds with an empty band store, and the resulting image has no textual
summary. -/
theorem repr_fails_on_metadata_free_image_witness :
    ((fun _ => some ([] : List String)) "scene") = some [] ∧
    (∀ p ∈ landsat9c2.file_pattern, globFilter p.2 [] = []) ∧
    load (fun _ => some []) (fun _ => none) "scene" "landsat9c2" =
      .ok ({ path := "scene", sensor := "landsat9c2", bands := [],
             metadata := none, config := landsat9c2 }, landsat9c2.file_pattern) ∧
    SatelliteImage.reprStr
      { path := "scene", sensor := "landsat9c2", bands := [], metadata := none,
        config := landsat9c2 } = none :=
  ⟨rfl, by decide,
    (repr_fails_on_metadata_free_image (fun _ => some []) (fun _ => none)
      "scene" "landsat9c2" [] landsat9c2 rfl rfl (by decide)).1,
    (repr_fails_on_metadata_free_image (fun _ => some []) (fun _ => none)
      "scene" "landsat9c2" [] landsat9c2 rfl rfl (by decide)).2⟩

end Specterra
